import Mathlib

/-! Shallow embedding of the FlexGet plugin sources under verification:
`flexget/utils/simple_persistence.py`, `flexget/plugins/metainfo/trakt_lookup.py`
and `flexget/plugins/clients/deluge2.py`.  Python dictionaries are embedded as
association lists, Python numbers as rationals (true division is in force via
`from __future__ import division`), and raising code as `Except`-valued
functions.  `KeyError` is a subclass of `LookupError` in Python, which the
`isLookupError` predicate records.
-/

namespace Flexget

/-- Python exception values relevant to the embedded code. -/
inductive PyExc where
  | lookupError (msg : String)
  | keyError (msg : String)
  | connectionError (msg : String)
  | pluginError (msg : String)
  | typeError (msg : String)
deriving DecidableEq, Repr

/-- Which exceptions an `except LookupError:` clause catches: `LookupError`
itself and its subclasses, of which `KeyError` is one. `ConnectionError`,
`PluginError` and `TypeError` are not `LookupError` subclasses. -/
def isLookupError : PyExc → Bool
  | .lookupError _ => true
  | .keyError _ => true
  | _ => false

/-- The message carried by an exception (what `log.debug(e)` renders). -/
def excMsg : PyExc → String
  | .lookupError m => m
  | .keyError m => m
  | .connectionError m => m
  | .pluginError m => m
  | .typeError m => m

/-- Logging levels of the `logging` module calls appearing in the sources. -/
inductive LogLevel where
  | debug
  | info
  | warning
  | logError
deriving DecidableEq, Repr

/-- One emitted log record. -/
structure LogMsg where
  level : LogLevel
  msg : String
deriving DecidableEq, Repr

/-- A file dictionary from a deluge torrent status, with keys `path` and `size`. -/
structure FileDict where
  path : String
  size : ℚ
deriving DecidableEq, Repr

/-- Python values stored in entries, stores and torrent-status dicts. -/
inductive PyVal where
  | none
  | num (q : ℚ)
  | str (s : String)
  | boolean (b : Bool)
  | strList (l : List String)
  | files (l : List FileDict)
deriving DecidableEq, Repr

/-- Association-list read, embedding Python `d.get(k)` / `k in d`. -/
def alGet {β : Type} : List (String × β) → String → Option β
  | [], _ => Option.none
  | (k', v) :: rest, k => if k' = k then some v else alGet rest k

/-- Association-list write, embedding Python `d[k] = v` (replaces an existing
binding for `k`, otherwise appends). -/
def alSet {β : Type} : List (String × β) → String → β → List (String × β)
  | [], k, v => [(k, v)]
  | (k', v') :: rest, k, v =>
      if k' = k then (k, v) :: rest else (k', v') :: alSet rest k v

/-- A FlexGet entry: a mapping from field names to values. -/
abbrev Entry := List (String × PyVal)

/-! Source file `flexget/utils/simple_persistence.py`. -/

/-- The in-memory store marks deletions with the module-level `DELETE` sentinel
(line 27: `DELETE = object()`); only the sentinel itself compares equal to it. -/
inductive StoreVal where
  | stored (v : PyVal)
  | DELETE
deriving DecidableEq, Repr

/-- The innermost level of `class_store`: a plain dict keyed by the entry key. -/
abbrev Store := List (String × StoreVal)

/-- One row of the `simple_persistence` table (`SimpleKeyValue`). -/
structure DbRow where
  task : String
  plugin : String
  key : String
  value : PyVal
deriving DecidableEq, Repr

/-- The backing database table. -/
abbrev Db := List DbRow

/-- Embeds `session.query(SimpleKeyValue).filter(task==...).filter(plugin==...)
.filter(key==...).first()`: the first matching row's value, if any. -/
def dbFirst (db : Db) (task plugin key : String) : Option PyVal :=
  (db.find? fun r => r.task == task && r.plugin == plugin && r.key == key).map
    DbRow.value

/-- The state a `SimplePersistence` instance operates on: its `taskname` and
`plugin` attributes, the inner store dict for that pair, and the database. -/
structure SPState where
  taskname : String
  plugin : String
  store : Store
  db : Db
deriving DecidableEq, Repr

/-- A fresh instance state over an empty store and an empty database. -/
def spInit (task plugin : String) : SPState :=
  ⟨task, plugin, [], []⟩

/-- Embeds `SimplePersistence.__setitem__` (lines 89–91): `self.store[key] = value`
(the `log.debug` call is elided). -/
def sp_setitem (s : SPState) (key : String) (value : PyVal) : SPState :=
  { s with store := alSet s.store key (.stored value) }

/-- Embeds `SimplePersistence.__delitem__` (lines 108–109): `self.store[key] = DELETE`. -/
def sp_delitem (s : SPState) (key : String) : SPState :=
  { s with store := alSet s.store key .DELETE }

/-- Embeds `SimplePersistence.__getitem__` (lines 93–106).  Note the membership test on
line 94 is on the literal string `'key'` (`if 'key' in self.store:`), while the
indexing two lines later uses the variable `key`; on that branch a missing `key`
raises `KeyError` from the dict indexing, and a `DELETE` tombstone raises
`KeyError` explicitly.  Otherwise the database is queried; a miss raises
`KeyError`, a hit caches the row's value into the store and returns it. -/
def sp_getitem (s : SPState) (key : String) : Except PyExc (SPState × PyVal) :=
  if (alGet s.store "key").isSome then
    match alGet s.store key with
    | Option.none => .error (.keyError key)
    | some .DELETE =>
        .error (.keyError
          (key ++ " is not contained in the simple_persistence table."))
    | some (.stored v) => .ok (s, v)
  else
    match dbFirst s.db s.taskname s.plugin key with
    | Option.none =>
        .error (.keyError
          (key ++ " is not contained in the simple_persistence table."))
    | some v => .ok ({ s with store := alSet s.store key (.stored v) }, v)

/-- Embeds `SimplePersistence.flush` (lines 117–120): the body is a `log.debug` call
followed by `# TODO: the stuff`; neither the store nor the database is touched. -/
def sp_flush (s : SPState) : SPState := s

/-- Python objects relevant to the `class_store` class attribute: the builtin
`dict` type (callable) and `defaultdict` instances (not callable). -/
inductive PyFactory where
  | dictType
  | defaultdictObj (factory : PyFactory)
deriving DecidableEq, Repr

/-- Python `callable(...)` on these objects: the `dict` type is callable, a
`defaultdict` instance defines no `__call__` and is not. -/
def isCallable : PyFactory → Bool
  | .dictType => true
  | .defaultdictObj _ => false

/-- CPython `defaultdict.__init__`: a first argument that is neither callable
nor `None` is rejected with `TypeError('first argument must be callable or
None')` at construction time. -/
def defaultdictNew (factory : PyFactory) : Except PyExc PyFactory :=
  if isCallable factory then .ok (.defaultdictObj factory)
  else .error (.typeError "first argument must be callable or None")

/-- Evaluation of the class-body initialiser on line 79,
`class_store = defaultdict(defaultdict(dict))`: the inner construction succeeds
(`dict` is callable), the outer one receives the resulting `defaultdict`
instance as its factory. -/
def classStoreInit : Except PyExc PyFactory :=
  (defaultdictNew .dictType).bind defaultdictNew

/-! Source file `flexget/plugins/metainfo/trakt_lookup.py`. -/

/-- An object returned by the trakt lookup functions, viewed through its
attributes: attribute access yields the value, or fails when absent. -/
abbrev TraktObj := List (String × PyVal)

/-- A value of one of the plugin's field maps: either a plain attribute name
(e.g. `'trakt_series_name': 'title'`) or a function of the looked-up object
(e.g. `'imdb_url': lambda series: ...`); a function returning `Option.none`
stands for an attribute-access failure inside it. -/
inductive FieldSpec where
  | attr (name : String)
  | func (f : TraktObj → Option PyVal)

/-- A field map such as `PluginTraktLookup.series_map`. -/
abbrev FieldMap := List (String × FieldSpec)

/-- Modelled from the spec: `Entry.update_using_map` is part of the FlexGet
core (`flexget/entry.py`), which is not under `src/`.  Spec §4.1,
`apply_mapping`: for each `(internal_name, spec)` entry of the mapping, a plain
attribute name copies `external_object.<name>`, a transform entry applies its
function to the external object; an attribute-access failure for one entry is
caught per-entry — that internal field is simply not set and mapping continues
with the remaining entries. -/
def update_using_map (fm : FieldMap) (obj : TraktObj) (e : Entry) : Entry :=
  match fm with
  | [] => e
  | (field, .attr name) :: rest =>
      match alGet obj name with
      | Option.none => update_using_map rest obj e
      | some v => update_using_map rest obj (alSet e field v)
  | (field, .func f) :: rest =>
      match f obj with
      | Option.none => update_using_map rest obj e
      | some v => update_using_map rest obj (alSet e field v)

/-- Embeds `entry['title']`-style indexing: raises `KeyError` when the field is
absent. -/
def entryGetItem (e : Entry) (k : String) : Except PyExc PyVal :=
  match alGet e k with
  | Option.none => .error (.keyError k)
  | some v => .ok v

/-- Embeds `TraktLookup.__call__` (trakt_lookup.py lines 28–37): runs
`self.lookup_function(entry, session)`; `except LookupError as e:` logs the
exception at debug level and falls through, returning the entry unchanged; any
other exception is not caught and propagates; on success the entry is updated
via `entry.update_using_map(self.field_map, result)`.  The result pairs the
returned entry with the log records emitted. -/
def TraktLookup_call (field_map : FieldMap)
    (lookup_function : Entry → Except PyExc TraktObj) (entry : Entry) :
    Except PyExc (Entry × List LogMsg) :=
  match lookup_function entry with
  | .error e =>
      if isLookupError e then .ok (entry, [⟨.debug, excMsg e⟩]) else .error e
  | .ok result => .ok (update_using_map field_map result entry, [])

/-- Embeds `PluginTraktLookup.lazy_user_data_lookup` (lines 300–311): the getter and
the user-data lookup are fetched first (a `KeyError` there becomes
`PluginError`, modelled by the `Option.none` cases); then
`user_data_lookup(lookup(entry, session), entry['title'])` runs under
`except LookupError as e:` which logs at debug level and falls off the end of
the function — an implicit `return None`.  Other exceptions propagate. -/
def lazy_user_data_lookup
    (getter : Option (Entry → Except PyExc TraktObj))
    (user_lookup : Option (TraktObj → PyVal → Except PyExc PyVal))
    (entry : Entry) : Except PyExc (PyVal × List LogMsg) :=
  match getter, user_lookup with
  | some lookupFn, some udl =>
      match (lookupFn entry).bind fun media =>
              (entryGetItem entry "title").bind fun title => udl media title with
      | .ok v => .ok (v, [])
      | .error e =>
          if isLookupError e then .ok (PyVal.none, [⟨.debug, excMsg e⟩])
          else .error e
  | _, _ => .error (.pluginError "Unknown data type or media type")

/-- Embeds `TraktUserDataLookup.__call__` (lines 47–55): runs
`self.lookup_function(...)`; `except LookupError as e:` logs at debug level and
returns the entry unchanged; otherwise the `else:` branch executes
`entry[self.field_name] = result` — whatever `result` is, `None` included. -/
def TraktUserDataLookup_call (field_name : String)
    (lookup_function : Entry → Except PyExc (PyVal × List LogMsg))
    (entry : Entry) : Except PyExc (Entry × List LogMsg) :=
  match lookup_function entry with
  | .error e =>
      if isLookupError e then .ok (entry, [⟨.debug, excMsg e⟩]) else .error e
  | .ok (result, logs) => .ok (alSet entry field_name result, logs)

/-! Lazy bindings (spec §3 "Lazy Binding", §4.1, §8.1–8.2). -/

instance {ε α : Type} [DecidableEq ε] [DecidableEq α] :
    DecidableEq (Except ε α) := fun x y =>
  match x, y with
  | .ok a, .ok b =>
      if h : a = b then .isTrue (by rw [h]) else .isFalse (by simp [h])
  | .error a, .error b =>
      if h : a = b then .isTrue (by rw [h]) else .isFalse (by simp [h])
  | .ok _, .error _ => .isFalse (by simp)
  | .error _, .ok _ => .isFalse (by simp)

/-- Modelled from the spec: the lazy-binding mechanism —
`Entry.register_lazy_func` and lazy field reads — lives in the FlexGet core
(`flexget/entry.py`), which is not under `src/`;
`PluginTraktLookup.on_task_metainfo` (lines 326–352) only registers the
bindings.  A binding associates a field set with a resolver; its `outcome`
stands for "resolver plus `apply_mapping`": the field writes it produces, or a
lookup failure producing none.  `invocations` counts how often the resolver has
been invoked; per spec §8.2 a failed binding is not retried, so evaluation
marks the binding invoked whatever the outcome. -/
structure LazyBinding where
  fields : List String
  outcome : Except PyExc (List (String × PyVal))
  invocations : ℕ
deriving DecidableEq, Repr

/-- Modelled from the spec: a record with materialized fields and registered
lazy bindings (spec §3 "Record", "Lazy Binding"). -/
structure LazyRecord where
  values : List (String × PyVal)
  bindings : List LazyBinding
deriving DecidableEq, Repr

/-- The field writes an evaluation of the binding performs: the mapped fields
on success, nothing on a lookup failure (covered fields stay absent). -/
def bindingWrites (b : LazyBinding) : List (String × PyVal) :=
  match b.outcome with
  | .ok ws => ws
  | .error _ => []

/-- Evaluate the first binding covering `f`: if it has not been invoked yet it
is invoked (its counter incremented) and its writes are returned; an
already-invoked covering binding is not re-invoked and yields no writes. -/
def readBindings (f : String) :
    List LazyBinding → List LazyBinding × List (String × PyVal)
  | [] => ([], [])
  | b :: bs =>
      if f ∈ b.fields then
        if b.invocations = 0 then
          ({ b with invocations := b.invocations + 1 } :: bs, bindingWrites b)
        else (b :: bs, [])
      else ((b :: (readBindings f bs).1), (readBindings f bs).2)

/-- Apply a list of field writes to the record's materialized values. -/
def applyWrites (ws : List (String × PyVal)) (vals : List (String × PyVal)) :
    List (String × PyVal) :=
  ws.foldl (fun acc kv => alSet acc kv.1 kv.2) vals

/-- Modelled from the spec: `get(field_name)` (spec §4.1) — a materialized
value is returned as is; otherwise the covering binding, if any, is evaluated
(at most once) and its writes land on the record, after which the field's now
current value (or absence) is returned. -/
def lazyRead (r : LazyRecord) (f : String) : LazyRecord × Option PyVal :=
  match alGet r.values f with
  | some v => (r, some v)
  | Option.none =>
      (⟨applyWrites (readBindings f r.bindings).2 r.values,
        (readBindings f r.bindings).1⟩,
       alGet (applyWrites (readBindings f r.bindings).2 r.values) f)

/-- A sequence of field reads, threading the record state. -/
def lazyReadAll (r : LazyRecord) : List String → LazyRecord
  | [] => r
  | f :: fs => lazyReadAll (lazyRead r f).1 fs

/-! Source file `flexget/plugins/clients/deluge2.py`, class `InputDeluge`. -/

/-- A value of `InputDeluge.settings_map` / `extra_settings_map`: either a
plain FlexGet key (`'name': 'title'`) or a `(flexget_key, format_func)` tuple
(`'seeding_time': ('deluge_seed_time', lambda time: time / 3600)`). -/
inductive DMapSpec where
  | direct (flexget_key : String)
  | transform (flexget_key : String) (format_func : PyVal → Except PyExc PyVal)

/-- Python true division of a status value by a numeric literal
(`from __future__ import division` is in force, so `7200 / 3600 == 2.0`);
booleans divide as the integers 1 and 0, non-numeric operands raise
`TypeError`. -/
def pyDiv (v : PyVal) (d : ℚ) : Except PyExc PyVal :=
  match v with
  | .num q => .ok (.num (q / d))
  | .boolean b => .ok (.num ((if b then (1 : ℚ) else 0) / d))
  | _ => .error (.typeError "unsupported operand type(s) for /")

/-- Embeds `lambda file_dicts: [f['path'] for f in file_dicts]` (the `'files'`
transform): extracts the path of each file dict; anything that is not a list
of file dicts raises `TypeError`. -/
def filesToPaths : PyVal → Except PyExc PyVal
  | .files l => .ok (.strList (l.map FileDict.path))
  | _ => .error (.typeError "object is not iterable")

/-- Embeds `InputDeluge.settings_map` (deluge2.py lines 66–81). -/
def settings_map (key : String) : Option DMapSpec :=
  match key with
  | "name" => some (.direct "title")
  | "hash" => some (.direct "torrent_info_hash")
  | "num_peers" => some (.direct "torrent_peers")
  | "num_seeds" => some (.direct "torrent_seeds")
  | "progress" => some (.direct "deluge_progress")
  | "seeding_time" =>
      some (.transform "deluge_seed_time" (fun time => pyDiv time 3600))
  | "private" => some (.direct "deluge_private")
  | "state" => some (.direct "deluge_state")
  | "eta" => some (.direct "deluge_eta")
  | "ratio" => some (.direct "deluge_ratio")
  | "move_on_completed_path" => some (.direct "deluge_movedone")
  | "save_path" => some (.direct "deluge_path")
  | "label" => some (.direct "deluge_label")
  | "total_size" =>
      some (.transform "content_size"
        (fun size => (pyDiv size 1024).bind fun x => pyDiv x 1024))
  | "files" => some (.transform "content_files" filesToPaths)
  | _ => Option.none

/-- The keys of `InputDeluge.extra_settings_map` (lines 83–121) other than
`'active_time'`; each of these maps to itself (a direct copy). -/
def extra_settings_keys : List String :=
  ["compact", "distributed_copies", "download_payload_rate", "file_progress",
   "is_auto_managed", "is_seed", "max_connections", "max_download_speed",
   "max_upload_slots", "max_upload_speed", "message", "move_on_completed",
   "next_announce", "num_files", "num_pieces", "paused", "peers",
   "piece_length", "prioritize_first_last", "queue", "remove_at_ratio",
   "seed_rank", "stop_at_ratio", "stop_ratio", "total_done",
   "total_payload_download", "total_payload_upload", "total_peers",
   "total_seeds", "total_uploaded", "total_wanted", "tracker", "tracker_host",
   "tracker_status", "trackers", "upload_payload_rate"]

/-- Embeds `InputDeluge.extra_settings_map` (lines 83–121): `'active_time'` carries
the `lambda time: time / 3600` transform; every other entry maps a key to the
same key. -/
def extra_settings_map (key : String) : Option DMapSpec :=
  if key = "active_time" then
    some (.transform "active_time" (fun time => pyDiv time 3600))
  else if extra_settings_keys.contains key then some (.direct key)
  else Option.none

/-- The field-mapping loop of `InputDeluge.generate_entries` (lines 204–212):
for each `(key, value)` of the torrent status dict, `key` is looked up in
`settings_map` when present there (`if key in self.settings_map:`), otherwise
indexed in `extra_settings_map` — plain dict indexing, which raises `KeyError`
when the key is in neither map.  A tuple spec unpacks into
`(flexget_key, format_func)` and the value is transformed; finally
`entry[flexget_key] = value`.  No exception is caught anywhere in the loop. -/
def apply_settings_map (pairs : List (String × PyVal)) (entry : Entry) :
    Except PyExc Entry :=
  match pairs with
  | [] => .ok entry
  | (key, value) :: rest =>
      match (match settings_map key with
             | some s => some s
             | Option.none => extra_settings_map key) with
      | Option.none => .error (.keyError key)
      | some (.direct fk) => apply_settings_map rest (alSet entry fk value)
      | some (.transform fk f) =>
          match f value with
          | .ok v => apply_settings_map rest (alSet entry fk v)
          | .error exc => .error exc

/-! The `OutputDeluge._format_label` helper (deluge2.py lines 446–448):

`return re.sub('[^\w-]+', '_', label.lower())`.  Strings are embedded as lists
of codepoints; `str.lower` and the `\w` class are modelled over the ASCII
range the deluge label strings use. -/

/-- Embeds `str.lower` on one codepoint: `A`–`Z` (65–90) shift to `a`–`z`, everything
else is unchanged. -/
def lowerCp (n : ℕ) : ℕ := if 65 ≤ n ∧ n ≤ 90 then n + 32 else n

/-- The character class `[\w-]` of the pattern: digits `0`–`9` (48–57), letters
`A`–`Z` (65–90) and `a`–`z` (97–122), underscore (95) and hyphen (45). -/
def isWordHyphen (n : ℕ) : Bool :=
  decide ((48 ≤ n ∧ n ≤ 57) ∨ (65 ≤ n ∧ n ≤ 90) ∨ (97 ≤ n ∧ n ≤ 122) ∨
    n = 95 ∨ n = 45)

/-- Embeds `re.sub('[^\w-]+', '_', ·)`: each maximal run of characters outside
`[\w-]` is replaced by a single underscore (codepoint 95).  `inRun` records
whether the previous character belonged to the run currently being replaced. -/
def subNonWordRuns (inRun : Bool) : List ℕ → List ℕ
  | [] => []
  | c :: cs =>
      if isWordHyphen c then c :: subNonWordRuns false cs
      else if inRun then subNonWordRuns inRun cs
      else 95 :: subNonWordRuns true cs

/-- Embeds `OutputDeluge._format_label`: lowercase the label, then collapse each run
of characters outside `[\w-]` into one underscore. -/
def format_label (label : List ℕ) : List ℕ :=
  subNonWordRuns false (label.map lowerCp)

/-! Theorems settling the claims, with their helper lemmas. -/

/-- Claim C6 (code bug): the persistence round-trip
`set(scope, ns, k, v); flush(); get(scope, ns, k)` does NOT return `v` — for
any task, plugin and value, with the ordinary key `"k"`, the read raises
`KeyError`.  Line 94 tests the literal string `'key'` for store membership, so
the freshly written in-memory value is never consulted, and `flush` commits
nothing, so the database lookup misses. -/
theorem C6_roundtrip_fails (t p : String) (v : PyVal) :
    sp_getitem (sp_flush (sp_setitem (spInit t p) "k" v)) "k"
      = Except.error (PyExc.keyError
          "k is not contained in the simple_persistence table.") := rfl

/-- Claim C7 (code bug): the tombstone is not honoured.  With the database
already holding `('t','p','k') ↦ 42` — the normal situation for a persisted
key — the sequence `set k 1; delete k; flush; get k` returns the stale
database value `42` instead of raising `KeyError`: the `'key'` literal on line
94 bypasses the in-memory `DELETE` tombstone and the database path resurrects
the row (also re-caching it over the tombstone). -/
theorem C7_tombstone_resurrected :
    sp_getitem (sp_flush (sp_delitem
        (sp_setitem ⟨"t", "p", [], [⟨"t", "p", "k", PyVal.num 42⟩]⟩ "k"
          (PyVal.num 1)) "k")) "k"
      = Except.ok (⟨"t", "p", [("k", StoreVal.stored (PyVal.num 42))],
          [⟨"t", "p", "k", PyVal.num 42⟩]⟩, PyVal.num 42) := by decide

/-- Claim C8 (code bug): `flush` commits nothing at all — it is the identity
on the whole state (its body is `log.debug` plus `# TODO: the stuff`).  In
particular a pending in-memory write is not committed: the database stays
empty.  The idempotence half of the claim holds only trivially. -/
theorem C8_flush_commits_nothing :
    (∀ s : SPState, sp_flush s = s) ∧
    (sp_flush ⟨"t", "p", [("k", StoreVal.stored (PyVal.num 1))], []⟩).db
      = [] :=
  ⟨fun _ => rfl, rfl⟩

/-- Claim C9, counterexample: `class_store` is never successfully constructed
with a non-callable default factory — CPython's `defaultdict.__init__` rejects
the non-callable argument already at construction, i.e. while the class body is
evaluated at import time, so no instance operation ever reaches the factory. -/
theorem C9_counterexample : ¬ ∃ cs, classStoreInit = Except.ok cs := by
  rintro ⟨cs, h⟩
  have hinit : classStoreInit
      = Except.error (PyExc.typeError "first argument must be callable or None") :=
    rfl
  rw [hinit] at h
  exact Except.noConfusion h

/-- Claim C9, amended: evaluating the class attribute
`class_store = defaultdict(defaultdict(dict))` itself raises
`TypeError('first argument must be callable or None')` at class-definition
(import) time, because the outer `defaultdict` receives a `defaultdict`
instance — which is not callable — as its default factory; no store operation
of `SimplePersistence` is ever reachable. -/
theorem C9_class_store_init_typeerror :
    classStoreInit
      = Except.error (PyExc.typeError "first argument must be callable or None")
    ∧ isCallable (PyFactory.defaultdictObj PyFactory.dictType) = false :=
  ⟨rfl, rfl⟩

/-- Claim C4, counterexample: an external key with no mapping entry is not
ignored — the mapping loop raises `KeyError` (from the
`extra_settings_map[key]` indexing on line 208) and aborts. -/
theorem C4_counterexample :
    apply_settings_map [("bogus_key", PyVal.num 1)] []
      = Except.error (PyExc.keyError "bogus_key") := by decide

/-- Claim C4, amended: for every torrent-status key that appears in neither
`settings_map` nor `extra_settings_map`, the field-mapping loop raises
`KeyError` for that key and aborts (no remaining entry is processed); there is
no per-entry exception handling in `generate_entries`. -/
theorem C4_unmapped_key_raises (key : String) (value : PyVal)
    (rest : List (String × PyVal)) (entry : Entry)
    (hs : settings_map key = Option.none)
    (he : extra_settings_map key = Option.none) :
    apply_settings_map ((key, value) :: rest) entry
      = Except.error (PyExc.keyError key) := by
  simp [apply_settings_map, hs, he]

/-- Witness for C4's theorem at the concrete unmapped key `"unmapped"`. -/
theorem C4_witness :
    settings_map "unmapped" = Option.none ∧
    extra_settings_map "unmapped" = Option.none ∧
    apply_settings_map [("unmapped", PyVal.num 3)] []
      = Except.error (PyExc.keyError "unmapped") :=
  ⟨rfl, rfl,
   C4_unmapped_key_raises "unmapped" (PyVal.num 3) [] [] rfl rfl⟩

/-- The `seeding_time` lambda at the claimed input: `7200 / 3600` is `2` under
true division. -/
theorem seedTime_div :
    pyDiv (PyVal.num 7200) 3600 = Except.ok (PyVal.num 2) := by
  simp only [pyDiv]
  norm_num

/-- Claim C5 (confirmed): a `(flexget_key, format_func)` mapping entry
materializes `format_func(value)` under the internal field name; in
particular `settings_map['seeding_time']` is
`('deluge_seed_time', lambda time: time / 3600)`, and an external value `7200`
materializes as `2` (true division over ℚ, i.e. Python's `2.0`). -/
theorem C5_transform_entries (key fk : String)
    (f : PyVal → Except PyExc PyVal) (value w : PyVal)
    (rest : List (String × PyVal)) (entry : Entry)
    (hmap : settings_map key = some (DMapSpec.transform fk f))
    (hf : f value = Except.ok w) :
    apply_settings_map ((key, value) :: rest) entry
      = apply_settings_map rest (alSet entry fk w) ∧
    settings_map "seeding_time"
      = some (DMapSpec.transform "deluge_seed_time"
          (fun time => pyDiv time 3600)) ∧
    apply_settings_map [("seeding_time", PyVal.num 7200)] []
      = Except.ok [("deluge_seed_time", PyVal.num 2)] := by
  refine ⟨?_, rfl, ?_⟩
  · simp [apply_settings_map, hmap, hf]
  · simp [apply_settings_map, settings_map, seedTime_div, alSet]

/-- Witness for C5's theorem at the `seeding_time = 7200` input of the claim. -/
theorem C5_witness :
    (apply_settings_map [("seeding_time", PyVal.num 7200)] []
        = apply_settings_map [] (alSet [] "deluge_seed_time" (PyVal.num 2))) ∧
    settings_map "seeding_time"
      = some (DMapSpec.transform "deluge_seed_time"
          (fun time => pyDiv time 3600)) ∧
    apply_settings_map [("seeding_time", PyVal.num 7200)] []
      = Except.ok [("deluge_seed_time", PyVal.num 2)] :=
  C5_transform_entries "seeding_time" "deluge_seed_time"
    (fun time => pyDiv time 3600) (PyVal.num 7200) (PyVal.num 2) [] [] rfl
    seedTime_div

/-- Claim C2, counterexample: for a user-data binding whose underlying lookup
raises `LookupError`, the covered field does NOT remain absent:
`lazy_user_data_lookup` swallows the exception (debug log) and implicitly
returns `None`, whereupon `TraktUserDataLookup.__call__` executes
`entry[self.field_name] = None` — the field is set to null. -/
theorem C2_counterexample :
    TraktUserDataLookup_call "trakt_collected"
        (lazy_user_data_lookup (some fun _ => Except.ok [])
          (some fun _ _ => Except.error (PyExc.lookupError "no user data")))
        [("title", PyVal.str "Foo")]
      = Except.ok
          ([("title", PyVal.str "Foo"), ("trakt_collected", PyVal.none)],
           [⟨LogLevel.debug, "no user data"⟩]) ∧
    alGet [("title", PyVal.str "Foo"), ("trakt_collected", PyVal.none)]
        "trakt_collected" = some PyVal.none :=
  ⟨rfl, rfl⟩

/-- Claim C2, amended: for a `TraktLookup` binding, a `LookupError` from the
lookup function is logged at debug level, no mapped field is written, and the
entry is returned unchanged (all covered fields stay absent).  For a
`TraktUserDataLookup` binding, however, a `LookupError` arising inside
`lazy_user_data_lookup` is swallowed there with a debug log and the binding's
field is then set to `None` on the record rather than left absent. -/
theorem C2_lookup_failure_fields (fm : FieldMap)
    (lf : Entry → Except PyExc TraktObj) (e : Entry) (msg : String)
    (g : Entry → Except PyExc TraktObj)
    (udl : TraktObj → PyVal → Except PyExc PyVal) (obj : TraktObj)
    (t : PyVal) (fname : String)
    (hlf : lf e = Except.error (PyExc.lookupError msg))
    (hg : g e = Except.ok obj)
    (ht : entryGetItem e "title" = Except.ok t)
    (hu : udl obj t = Except.error (PyExc.lookupError msg)) :
    TraktLookup_call fm lf e = Except.ok (e, [⟨LogLevel.debug, msg⟩]) ∧
    TraktUserDataLookup_call fname
        (lazy_user_data_lookup (some g) (some udl)) e
      = Except.ok (alSet e fname PyVal.none, [⟨LogLevel.debug, msg⟩]) := by
  constructor
  · simp [TraktLookup_call, hlf, isLookupError, excMsg]
  · simp [TraktUserDataLookup_call, lazy_user_data_lookup, Except.bind, hg,
      ht, hu, isLookupError, excMsg]

/-- Witness for C2's theorem at a concrete entry and lookup failure. -/
theorem C2_witness :
    TraktLookup_call [] (fun _ => Except.error (PyExc.lookupError "nope"))
        [("title", PyVal.str "Bar")]
      = Except.ok ([("title", PyVal.str "Bar")], [⟨LogLevel.debug, "nope"⟩]) ∧
    TraktUserDataLookup_call "trakt_watched"
        (lazy_user_data_lookup (some fun _ => Except.ok [])
          (some fun _ _ => Except.error (PyExc.lookupError "nope")))
        [("title", PyVal.str "Bar")]
      = Except.ok
          (alSet [("title", PyVal.str "Bar")] "trakt_watched" PyVal.none,
           [⟨LogLevel.debug, "nope"⟩]) :=
  C2_lookup_failure_fields []
    (fun _ => Except.error (PyExc.lookupError "nope"))
    [("title", PyVal.str "Bar")] "nope" (fun _ => Except.ok [])
    (fun _ _ => Except.error (PyExc.lookupError "nope")) []
    (PyVal.str "Bar") "trakt_watched" rfl rfl rfl rfl

/-- Claim C3, counterexample: a `ConnectionError` raised by the lookup client
propagates out of the binding evaluation — `TraktLookup.__call__` catches only
`LookupError`, so the exception is NOT recovered locally. -/
theorem C3_counterexample :
    TraktLookup_call []
        (fun _ => Except.error (PyExc.connectionError "refused")) []
      = Except.error (PyExc.connectionError "refused") := rfl

/-- Claim C3, amended: only `LookupError` (with its subclasses such as
`KeyError`) is treated as "binding failed" and recovered locally with a debug
log and the fields left absent; every other exception from the lookup client,
`ConnectionError` included, propagates uncaught out of the binding evaluation
— both out of `TraktLookup.__call__` and out of `lazy_user_data_lookup`. -/
theorem C3_only_lookuperror_recovered (fm : FieldMap)
    (lf : Entry → Except PyExc TraktObj) (e : Entry) (exc : PyExc)
    (udl : TraktObj → PyVal → Except PyExc PyVal)
    (hlf : lf e = Except.error exc) :
    (isLookupError exc = true →
      TraktLookup_call fm lf e
        = Except.ok (e, [⟨LogLevel.debug, excMsg exc⟩])) ∧
    (isLookupError exc = false →
      TraktLookup_call fm lf e = Except.error exc) ∧
    (isLookupError exc = false →
      lazy_user_data_lookup (some lf) (some udl) e = Except.error exc) := by
  refine ⟨fun h => ?_, fun h => ?_, fun h => ?_⟩ <;>
    simp [TraktLookup_call, lazy_user_data_lookup, Except.bind, hlf, h]

/-- Witness for C3's theorem at a concrete transport failure. -/
theorem C3_witness :
    (isLookupError (PyExc.connectionError "down") = true →
      TraktLookup_call []
          (fun _ => Except.error (PyExc.connectionError "down")) []
        = Except.ok
            ([], [⟨LogLevel.debug, excMsg (PyExc.connectionError "down")⟩])) ∧
    (isLookupError (PyExc.connectionError "down") = false →
      TraktLookup_call []
          (fun _ => Except.error (PyExc.connectionError "down")) []
        = Except.error (PyExc.connectionError "down")) ∧
    (isLookupError (PyExc.connectionError "down") = false →
      lazy_user_data_lookup
          (some fun _ => Except.error (PyExc.connectionError "down"))
          (some fun _ _ => Except.ok PyVal.none) []
        = Except.error (PyExc.connectionError "down")) :=
  C3_only_lookuperror_recovered []
    (fun _ => Except.error (PyExc.connectionError "down")) []
    (PyExc.connectionError "down") (fun _ _ => Except.ok PyVal.none) rfl

/-- Lowercasing never produces an uppercase letter. -/
theorem lowerCp_not_upper (n : ℕ) :
    ¬ (65 ≤ lowerCp n ∧ lowerCp n ≤ 90) := by
  unfold lowerCp
  split <;> omega

/-- Every codepoint of `subNonWordRuns b l` is the replacement underscore or a
kept codepoint of `l` that lies in `[\w-]`. -/
theorem mem_subNonWordRuns (c : ℕ) :
    ∀ (b : Bool) (l : List ℕ), c ∈ subNonWordRuns b l →
      c = 95 ∨ (c ∈ l ∧ isWordHyphen c = true) := by
  intro b l
  induction l generalizing b with
  | nil => intro h; simp [subNonWordRuns] at h
  | cons hd tl ih =>
      intro h
      by_cases hw : isWordHyphen hd
      · simp only [subNonWordRuns, hw, if_true, List.mem_cons] at h
        rcases h with h | h
        · subst h
          exact Or.inr ⟨List.mem_cons_self _ _, hw⟩
        · rcases ih false h with h95 | ⟨hmem, hwc⟩
          · exact Or.inl h95
          · exact Or.inr ⟨List.mem_cons_of_mem _ hmem, hwc⟩
      · cases b with
        | true =>
            simp only [subNonWordRuns, hw, if_false, Bool.false_eq_true,
              if_true] at h
            rcases ih true h with h95 | ⟨hmem, hwc⟩
            · exact Or.inl h95
            · exact Or.inr ⟨List.mem_cons_of_mem _ hmem, hwc⟩
        | false =>
            simp only [subNonWordRuns, hw, if_false, Bool.false_eq_true,
              List.mem_cons] at h
            rcases h with h | h
            · exact Or.inl h
            · rcases ih true h with h95 | ⟨hmem, hwc⟩
              · exact Or.inl h95
              · exact Or.inr ⟨List.mem_cons_of_mem _ hmem, hwc⟩

/-- A list whose codepoints all lie in `[\w-]` is left unchanged by the
substitution. -/
theorem subNonWordRuns_id :
    ∀ l : List ℕ, (∀ c ∈ l, isWordHyphen c = true) →
      subNonWordRuns false l = l := by
  intro l
  induction l with
  | nil => intro _; rfl
  | cons hd tl ih =>
      intro h
      have hhd : isWordHyphen hd = true := h hd (List.mem_cons_self _ _)
      simp only [subNonWordRuns, hhd, if_true]
      exact congrArg (hd :: ·) (ih fun c hc => h c (List.mem_cons_of_mem _ hc))

/-- Inside a run being replaced, further non-`[\w-]` codepoints emit nothing. -/
theorem subNonWordRuns_true_nil :
    ∀ l : List ℕ, (∀ c ∈ l, isWordHyphen c = false) →
      subNonWordRuns true l = [] := by
  intro l
  induction l with
  | nil => intro _; rfl
  | cons hd tl ih =>
      intro h
      have hhd : isWordHyphen hd = false := h hd (List.mem_cons_self _ _)
      simp only [subNonWordRuns, hhd, Bool.false_eq_true, if_false, if_true]
      exact ih fun c hc => h c (List.mem_cons_of_mem _ hc)

/-- A nonempty maximal run of codepoints outside `[\w-]` becomes one single
underscore. -/
theorem subNonWordRuns_single_underscore :
    ∀ l : List ℕ, l ≠ [] → (∀ c ∈ l, isWordHyphen c = false) →
      subNonWordRuns false l = [95] := by
  intro l hne h
  match l with
  | [] => exact absurd rfl hne
  | hd :: tl =>
      have hhd : isWordHyphen hd = false := h hd (List.mem_cons_self _ _)
      simp only [subNonWordRuns, hhd, Bool.false_eq_true, if_false]
      exact congrArg (95 :: ·)
        (subNonWordRuns_true_nil tl fun c hc => h c (List.mem_cons_of_mem _ hc))

/-- Characters of a formatted label: lowercase letters, digits, underscore or
hyphen only. -/
theorem format_label_chars (s : List ℕ) :
    ∀ c ∈ format_label s,
      (97 ≤ c ∧ c ≤ 122) ∨ (48 ≤ c ∧ c ≤ 57) ∨ c = 95 ∨ c = 45 := by
  intro c hc
  rcases mem_subNonWordRuns c false (s.map lowerCp) hc with h95 | ⟨hmem, hw⟩
  · omega
  · rcases List.mem_map.mp hmem with ⟨d, _, hd⟩
    have hnu := lowerCp_not_upper d
    rw [hd] at hnu
    simp only [isWordHyphen, decide_eq_true_eq] at hw
    omega

/-- Every character of a formatted label is fixed by `str.lower` and lies in
`[\w-]`. -/
theorem format_label_fixed_chars (s : List ℕ) :
    ∀ c ∈ format_label s, lowerCp c = c ∧ isWordHyphen c = true := by
  intro c hc
  have h := format_label_chars s c hc
  constructor
  · unfold lowerCp
    split <;> omega
  · simp only [isWordHyphen, decide_eq_true_eq]
    omega

/-- Mapping `str.lower` over a list it fixes pointwise is the identity. -/
theorem map_lowerCp_id :
    ∀ l : List ℕ, (∀ c ∈ l, lowerCp c = c) → l.map lowerCp = l := by
  intro l
  induction l with
  | nil => intro _; rfl
  | cons hd tl ih =>
      intro h
      simp only [List.map_cons, h hd (List.mem_cons_self _ _)]
      exact congrArg (hd :: ·) (ih fun c hc => h c (List.mem_cons_of_mem _ hc))

/-- Claim C10 (confirmed): `_format_label` is normalizing and idempotent — its
output contains only lowercase letters, digits, underscores and hyphens; it is
a fixed point of itself; and a nonempty maximal run of characters outside
`[\w-]` (after lowercasing) is replaced by one single underscore. -/
theorem C10_format_label_normalizing (s : List ℕ) :
    (∀ c ∈ format_label s,
        (97 ≤ c ∧ c ≤ 122) ∨ (48 ≤ c ∧ c ≤ 57) ∨ c = 95 ∨ c = 45) ∧
    format_label (format_label s) = format_label s ∧
    (s ≠ [] → (∀ c ∈ s, isWordHyphen (lowerCp c) = false) →
      format_label s = [95]) := by
  refine ⟨format_label_chars s, ?_, ?_⟩
  · show subNonWordRuns false ((format_label s).map lowerCp) = format_label s
    rw [map_lowerCp_id (format_label s)
        (fun c hc => (format_label_fixed_chars s c hc).1)]
    exact subNonWordRuns_id (format_label s)
      (fun c hc => (format_label_fixed_chars s c hc).2)
  · intro hne hall
    show subNonWordRuns false (s.map lowerCp) = [95]
    refine subNonWordRuns_single_underscore (s.map lowerCp) ?_ ?_
    · simpa using hne
    · intro c hc
      rcases List.mem_map.mp hc with ⟨d, hd, rfl⟩
      exact hall d hd

/-- Witness for C10's theorem: `"!"` formats to `"_"`, and `"Hi!!-_"` formats
to `"hi_-_"` (codepoints). -/
theorem C10_witness :
    format_label [33] = [95] ∧
    format_label [72, 105, 33, 33, 45, 95] = [104, 105, 95, 45, 95] :=
  ⟨(C10_format_label_normalizing [33]).2.2 (by decide) (by decide), by decide⟩

/-- A binding that has already been invoked is left untouched by
`readBindings` (only a binding with a zero counter can be evaluated). -/
theorem readBindings_stable (f : String) :
    ∀ (bs : List LazyBinding) (i : ℕ) (b : LazyBinding),
      bs[i]? = some b → 1 ≤ b.invocations →
      (readBindings f bs).1[i]? = some b := by
  intro bs
  induction bs with
  | nil => intro i b h _; simp at h
  | cons hd tl ih =>
      intro i b h hinv
      cases i with
      | zero =>
          simp only [List.getElem?_cons_zero, Option.some.injEq] at h
          subst h
          by_cases hf : f ∈ hd.fields
          · have h0 : ¬ hd.invocations = 0 := by omega
            simp [readBindings, hf, h0]
          · simp [readBindings, hf]
      | succ j =>
          simp only [List.getElem?_cons_succ] at h
          by_cases hf : f ∈ hd.fields
          · by_cases h0 : hd.invocations = 0 <;>
              simp [readBindings, hf, h0, h]
          · simp [readBindings, hf, ih j b h hinv]

/-- Reading a field for which the first covering binding is the `i`-th one,
still uninvoked, invokes exactly that binding: its counter becomes 1. -/
theorem readBindings_first_hit (f : String) :
    ∀ (bs : List LazyBinding) (i : ℕ) (b : LazyBinding),
      bs[i]? = some b → b.invocations = 0 → f ∈ b.fields →
      (∀ j, j < i → ∀ b', bs[j]? = some b' → f ∉ b'.fields) →
      (readBindings f bs).1[i]? = some { b with invocations := 1 } := by
  intro bs
  induction bs with
  | nil => intro i b h; simp at h
  | cons hd tl ih =>
      intro i b h h0 hf hfirst
      cases i with
      | zero =>
          simp only [List.getElem?_cons_zero, Option.some.injEq] at h
          subst h
          simp [readBindings, hf, h0]
      | succ j =>
          have hhd : f ∉ hd.fields :=
            hfirst 0 (Nat.succ_pos j) hd (by simp)
          simp only [List.getElem?_cons_succ] at h
          simp only [readBindings, hhd, if_false, List.getElem?_cons_succ]
          exact ih j b h h0 hf fun j' hj' b' hb' =>
            hfirst (j' + 1) (Nat.succ_lt_succ hj') b' (by simpa using hb')

/-- One lazy read never touches a binding whose resolver has already been
invoked. -/
theorem lazyRead_stable (r : LazyRecord) (g : String) (i : ℕ)
    (b : LazyBinding) (hb : r.bindings[i]? = some b)
    (hinv : 1 ≤ b.invocations) :
    (lazyRead r g).1.bindings[i]? = some b := by
  unfold lazyRead
  cases hval : alGet r.values g with
  | some v => simpa using hb
  | none => simpa using readBindings_stable g r.bindings i b hb hinv

/-- No sequence of lazy reads ever touches a binding whose resolver has
already been invoked. -/
theorem lazyReadAll_stable :
    ∀ (gs : List String) (r : LazyRecord) (i : ℕ) (b : LazyBinding),
      r.bindings[i]? = some b → 1 ≤ b.invocations →
      (lazyReadAll r gs).bindings[i]? = some b := by
  intro gs
  induction gs with
  | nil => intro r i b hb _; simpa [lazyReadAll] using hb
  | cons g gs ih =>
      intro r i b hb hinv
      simp only [lazyReadAll]
      exact ih (lazyRead r g).1 i b (lazyRead_stable r g i b hb hinv) hinv

/-- Claim C1 (confirmed against the spec model): for a binding registered with
field set `F` and resolver `R` that has not been invoked, reading a
not-yet-materialized field of `F` (covered first by this binding) invokes `R`
exactly once, and however many further fields — of `F` or not — are read
afterwards, the invocation count of the binding stays at exactly 1: subsequent
reads never re-invoke the resolver. -/
theorem C1_resolver_invoked_exactly_once (r : LazyRecord) (i : ℕ)
    (b : LazyBinding) (f : String) (fs : List String)
    (hb : r.bindings[i]? = some b) (hfresh : b.invocations = 0)
    (hcov : f ∈ b.fields) (hunmat : alGet r.values f = Option.none)
    (hfirst : ∀ j, j < i → ∀ b', r.bindings[j]? = some b' → f ∉ b'.fields) :
    (lazyReadAll r (f :: fs)).bindings[i]?
      = some { b with invocations := 1 } := by
  simp only [lazyReadAll]
  refine lazyReadAll_stable fs (lazyRead r f).1 i { b with invocations := 1 }
    ?_ (le_refl 1)
  unfold lazyRead
  rw [hunmat]
  simpa using readBindings_first_hit f r.bindings i b hb hfresh hcov hfirst

/-- Witness for C1's theorem: the episode binding of the spec's §8.7 scenario,
registered for `{trakt_ep_name, trakt_ep_overview}`; after reading
`trakt_ep_name` and then two further covered reads, the resolver has run
exactly once. -/
theorem C1_witness :
    (lazyReadAll
        ⟨[], [⟨["trakt_ep_name", "trakt_ep_overview"],
               Except.ok [("trakt_ep_name", PyVal.str "Pilot")], 0⟩]⟩
        ["trakt_ep_name", "trakt_ep_overview", "trakt_ep_name"]).bindings[0]?
      = some ⟨["trakt_ep_name", "trakt_ep_overview"],
          Except.ok [("trakt_ep_name", PyVal.str "Pilot")], 1⟩ :=
  C1_resolver_invoked_exactly_once
    ⟨[], [⟨["trakt_ep_name", "trakt_ep_overview"],
           Except.ok [("trakt_ep_name", PyVal.str "Pilot")], 0⟩]⟩
    0 ⟨["trakt_ep_name", "trakt_ep_overview"],
       Except.ok [("trakt_ep_name", PyVal.str "Pilot")], 0⟩
    "trakt_ep_name" ["trakt_ep_overview", "trakt_ep_name"]
    (by simp) rfl (by decide) rfl
    (fun j hj b' _ => absurd hj (Nat.not_lt_zero j))

end Flexget
